import Mathlib

/-!
Verification of the Veo prompt generator core (src/types.ts).

The embedding models the service function `generateVeoPrompt`
(geminiService section of src/types.ts, lines 475-620) together with the
part-assembly and timeline-rendering logic it contains, and the error
classification performed by the caller (App.tsx section, lines 197-202).

Modelling conventions:
  - JavaScript strings are Lean `String`s; JS string truthiness is the
    test `s ≠ ""` (the only falsy string is the empty one).
  - `process.env.API_KEY` is an `Option String` (undefined or a string);
    the guard `!process.env.API_KEY` is true exactly when the key is
    `none` or `some ""`.
  - The network call `ai.models.generateContent` is an oracle parameter
    `call : List Part → ApiOutcome`: it either returns a response text or
    throws a JavaScript value.  `JSON.parse` is an oracle parameter
    `parse : String → Except String Json` (on failure it throws a
    SyntaxError, an Error instance, carrying the given message).
  - `JSON.stringify(v, null, 2)` is implemented concretely as
    `jsonStringify2` below.
  - a promise either resolves with a `String` or rejects with a
    JavaScript value, modelled by `Except JsVal String`; `JsVal`
    distinguishes `Error` instances from plain string values so that
    `instanceof Error` is expressible.
-/

set_option maxRecDepth 65536

namespace VeoGen

/-- One action beat of the action timeline (src/types.ts lines 508-512). -/
structure Action where
  startTime : String
  endTime : String
  description : String
deriving DecidableEq

/-- One dialogue line of the dialogue timeline (src/types.ts lines 514-518). -/
structure TimedDialogue where
  startTime : String
  endTime : String
  dialogueText : String
deriving DecidableEq

/-- The optional reference image (src/types.ts lines 525-528). -/
structure ImageRef where
  data : String
  mimeType : String
deriving DecidableEq

/-- The input record of `generateVeoPrompt` (src/types.ts lines 520-529). -/
structure VeoPromptInput where
  actions : List Action
  timedDialogues : List TimedDialogue
  cameraMovement : String
  tone : String
  image : Option ImageRef
deriving DecidableEq

/-- One element of the `parts` array submitted to the model: either an
`inlineData` image part or a text part (src/types.ts lines 543-578). -/
inductive Part where
  | inlineData (mimeType : String) (data : String)
  | text (s : String)
deriving DecidableEq

/-- A JavaScript value sitting in an error channel (thrown, or used to
reject a promise): either an `Error` instance carrying a message, or a
plain string. -/
inductive JsVal where
  | errorObj (message : String)
  | strVal (s : String)
deriving DecidableEq

/-- Outcome of the single `ai.models.generateContent` call: the response
text, or a thrown JavaScript value (transport / SDK failure). -/
inductive ApiOutcome where
  | success (text : String)
  | failure (thrown : JsVal)
deriving DecidableEq

/-- A parsed JSON value (the result of `JSON.parse` on the response).
Numbers are carried by their decimal rendering, which is all
serialization needs. -/
inductive Json where
  | null
  | bool (b : Bool)
  | num (lit : String)
  | str (s : String)
  | arr (items : List Json)
  | obj (fields : List (String × Json))

/-- JavaScript `x || d` on strings: the empty string is the only falsy
string, so it is replaced by the default. -/
def jsOr (s d : String) : String :=
  if s = "" then d else s

/-- JavaScript `s.trim()`: strip whitespace from both ends.  (Modelled
over the ASCII whitespace characters of `Char.isWhitespace`; the claims
only depend on whether the trimmed text is empty.)  Written by structural
recursion over the character list so that concrete instances evaluate. -/
def jsTrim (s : String) : String :=
  String.mk (((s.data.dropWhile Char.isWhitespace).reverse.dropWhile Char.isWhitespace).reverse)

/-- JavaScript `s.startsWith(pre)`: the given string is a prefix of `s`.
Written over character lists so that concrete instances evaluate. -/
def jsStartsWith (s pre : String) : Bool :=
  pre.data.isPrefixOf s.data

/-- Model of `actions.some(a => a.description.trim())` (src/types.ts line 536). -/
def hasValidAction (actions : List Action) : Bool :=
  actions.any (fun a => jsTrim a.description != "")

/-- Model of `timedDialogues.some(d => d.dialogueText.trim())` (src/types.ts line 537). -/
def hasValidDialogue (dialogues : List TimedDialogue) : Bool :=
  dialogues.any (fun d => jsTrim d.dialogueText != "")

/-- The line rendered for one action beat (src/types.ts line 558). -/
def actionLine (a : Action) : String :=
  "- " ++ jsOr a.startTime "0" ++ "–" ++ jsOr a.endTime "?" ++ " sec: " ++ jsTrim a.description

/-- The line rendered for one dialogue entry, quoting the dialogue text
(src/types.ts line 566). -/
def dialogueLine (d : TimedDialogue) : String :=
  "- " ++ jsOr d.startTime "0" ++ "–" ++ jsOr d.endTime "?" ++ " sec: \"" ++ jsTrim d.dialogueText ++ "\""

/-- The `timeline` string: filter to entries with non-empty trimmed
description, render each line, join with newline (src/types.ts lines 556-559). -/
def actionTimeline (actions : List Action) : String :=
  String.intercalate "\n" ((actions.filter (fun a => jsTrim a.description != "")).map actionLine)

/-- The `dialogueTimeline` string (src/types.ts lines 564-567). -/
def dialogueTimeline (dialogues : List TimedDialogue) : String :=
  String.intercalate "\n" ((dialogues.filter (fun d => jsTrim d.dialogueText != "")).map dialogueLine)

/-- Assembly of the `parts` array (src/types.ts lines 543-578), mirroring
the sequence of `parts.push` calls. -/
def buildParts (input : VeoPromptInput) : List Part := Id.run do
  let mut parts : List Part := []
  match input.image with
  | some image =>
      parts := parts ++ [Part.inlineData image.mimeType image.data]
      parts := parts ++ [Part.text "The user has provided the above image as a visual reference."]
  | none => pure ()
  if hasValidAction input.actions then
    parts := parts ++ [Part.text ("ACTION TIMELINE:\n" ++ actionTimeline input.actions)]
  if hasValidDialogue input.timedDialogues then
    parts := parts ++ [Part.text ("DIALOGUE TIMELINE (IN INDONESIAN):\n" ++ dialogueTimeline input.timedDialogues)]
  if input.cameraMovement != "" && input.cameraMovement != "Automatic" then
    parts := parts ++ [Part.text ("CAMERA MOVEMENT PREFERENCE: " ++ input.cameraMovement)]
  if input.tone != "" && input.tone != "Automatic" then
    parts := parts ++ [Part.text ("TONE PREFERENCE: " ++ input.tone)]
  return parts

/-- The `required` field list of `veoPromptSchema` (src/types.ts lines 503-506). -/
def veoPromptSchemaRequired : List String :=
  ["prompt", "keyword", "style", "tone", "camera", "motion", "angle", "lens",
   "lighting", "audio", "setting", "place", "time", "characters", "plot_point",
   "duration_second", "aspect_ratio", "negative_prompt"]

/-- Whether a JSON value is an object carrying the given key. -/
def Json.hasField (j : Json) (key : String) : Bool :=
  match j with
  | Json.obj fields => fields.any (fun f => f.1 == key)
  | _ => false

/-- Whether a JSON value carries every field required by `veoPromptSchema`. -/
def satisfiesRequired (j : Json) : Bool :=
  veoPromptSchemaRequired.all (fun k => j.hasField k)

/-- One hexadecimal digit, for `\u00XX` escapes. -/
def hexDigit (n : Nat) : String :=
  if n = 0 then "0" else if n = 1 then "1" else if n = 2 then "2"
  else if n = 3 then "3" else if n = 4 then "4" else if n = 5 then "5"
  else if n = 6 then "6" else if n = 7 then "7" else if n = 8 then "8"
  else if n = 9 then "9" else if n = 10 then "a" else if n = 11 then "b"
  else if n = 12 then "c" else if n = 13 then "d" else if n = 14 then "e"
  else "f"

/-- JSON string escaping of one character, as `JSON.stringify` performs it. -/
def jsonEscapeChar (c : Char) : String :=
  if c = '"' then "\\\""
  else if c = '\\' then "\\\\"
  else if c = '\n' then "\\n"
  else if c = '\r' then "\\r"
  else if c = '\t' then "\\t"
  else if c = '\x08' then "\\b"
  else if c = '\x0c' then "\\f"
  else if c.toNat < 32 then "\\u00" ++ hexDigit (c.toNat / 16) ++ hexDigit (c.toNat % 16)
  else String.singleton c

/-- A JSON string literal: quoted and escaped. -/
def jsonQuote (s : String) : String :=
  "\"" ++ String.join (s.data.map jsonEscapeChar) ++ "\""

/-- Indentation of the given depth with a two-space gap. -/
def indentStr (depth : Nat) : String :=
  String.join (List.replicate depth "  ")

mutual

/-- Serialization of a JSON value at a given depth, following
`JSON.stringify(v, null, 2)`. -/
def renderJson (depth : Nat) : Json → String
  | Json.null => "null"
  | Json.bool b => if b then "true" else "false"
  | Json.num lit => lit
  | Json.str s => jsonQuote s
  | Json.arr [] => "[]"
  | Json.arr (j :: js) =>
      "[\n" ++ String.intercalate ",\n" (renderItems (depth + 1) (j :: js)) ++
      "\n" ++ indentStr depth ++ "]"
  | Json.obj [] => "\x7b\x7d"
  | Json.obj (f :: fs) =>
      "\x7b\n" ++ String.intercalate ",\n" (renderFields (depth + 1) (f :: fs)) ++
      "\n" ++ indentStr depth ++ "\x7d"

/-- Serialization of the elements of a JSON array, each on its own
indented line. -/
def renderItems (depth : Nat) : List Json → List String
  | [] => []
  | j :: js => (indentStr depth ++ renderJson depth j) :: renderItems depth js

/-- Serialization of the fields of a JSON object, each on its own
indented line. -/
def renderFields (depth : Nat) : List (String × Json) → List String
  | [] => []
  | f :: fs => (indentStr depth ++ jsonQuote f.1 ++ ": " ++ renderJson depth f.2) :: renderFields depth fs

end

/-- Model of `JSON.stringify(v, null, 2)` (src/types.ts line 611). -/
def jsonStringify2 (v : Json) : String :=
  renderJson 0 v

/-- The test `err instanceof Error` on an error-channel value. -/
def instanceOfError : JsVal → Bool
  | JsVal.errorObj _ => true
  | JsVal.strVal _ => false

/-- The message the caller displays for a rejection value
(App.tsx section, src/types.ts lines 197-202): the `message` of an
`Error` instance, and a generic fallback for any other value. -/
def appDisplayError : JsVal → String
  | JsVal.errorObj message => message
  | JsVal.strVal _ => "An unexpected error occurred."

/-- The service function `generateVeoPrompt` (src/types.ts lines 531-620).
`apiKey` is `process.env.API_KEY`; `parse` and `call` are the `JSON.parse`
and `ai.models.generateContent` oracles.  The result is the promise:
resolved with the pretty-printed JSON string, or rejected with a
JavaScript value.  Both guard `throw`s sit before the `try` block, so
they reject the promise with the `Error` instance itself; every failure
inside the `try` is routed through the `catch`, which rejects with a
plain string (the prefixed message for `Error` instances, a generic
message otherwise). -/
def generateVeoPrompt (apiKey : Option String)
    (parse : String → Except String Json)
    (call : List Part → ApiOutcome)
    (input : VeoPromptInput) : Except JsVal String :=
  if apiKey.getD "" = "" then
    Except.error (JsVal.errorObj "API key is missing. Please set the API_KEY environment variable.")
  else if !hasValidAction input.actions && !hasValidDialogue input.timedDialogues && input.image.isNone then
    Except.error (JsVal.errorObj "Action timeline, dialogue timeline, or an image is required.")
  else
    match call (buildParts input) with
    | ApiOutcome.failure (JsVal.errorObj m) =>
        Except.error (JsVal.strVal ("Failed to generate prompt: " ++ m))
    | ApiOutcome.failure (JsVal.strVal _) =>
        Except.error (JsVal.strVal "An unknown error occurred while generating the prompt.")
    | ApiOutcome.success jsonString =>
        if !jsStartsWith jsonString "\x7b" && !jsStartsWith jsonString "[" then
          Except.error (JsVal.strVal "Failed to generate prompt: The API did not return a valid JSON format.")
        else
          match parse jsonString with
          | Except.error m => Except.error (JsVal.strVal ("Failed to generate prompt: " ++ m))
          | Except.ok parsedJson => Except.ok (jsonStringify2 parsedJson)

/-! ## Concrete fixtures used by witnesses and counterexamples -/

/-- A sample input with one valid action beat and automatic preferences. -/
def sampleInput : VeoPromptInput :=
  ⟨[⟨"0", "2", "Knight walks"⟩], [⟨"", "", ""⟩], "Automatic", "Automatic", none⟩

/-- A response object carrying 17 of the 18 required schema fields:
`aspect_ratio` is missing. -/
def jsonMissingAspect : Json :=
  Json.obj [
    ("prompt", Json.str "A knight walks through a courtyard"),
    ("keyword", Json.arr [Json.str "knight", Json.str "walk"]),
    ("style", Json.str "cinematic"),
    ("tone", Json.str "epic"),
    ("camera", Json.str "DSLR"),
    ("motion", Json.str "static"),
    ("angle", Json.str "eye-level"),
    ("lens", Json.str "wide-angle"),
    ("lighting", Json.str "golden hour"),
    ("audio", Json.str "footsteps on stone"),
    ("setting", Json.str "medieval castle"),
    ("place", Json.str "a moss-covered courtyard"),
    ("time", Json.str "dusk"),
    ("characters", Json.arr [Json.str "a knight in armor"]),
    ("plot_point", Json.str "The knight walks."),
    ("duration_second", Json.num "2"),
    ("negative_prompt", Json.str "blurry, low quality")]

/-- The response text for `jsonMissingAspect` (its serialized form, so it
starts with an opening brace). -/
def respMissingAspect : String :=
  jsonStringify2 jsonMissingAspect

/-- A `JSON.parse` oracle that parses exactly that response text. -/
def parseMissingAspect : String → Except String Json :=
  fun s => if s = respMissingAspect then Except.ok jsonMissingAspect
           else Except.error "Unexpected token"

/-! ## Helper lemmas -/

/-- The parts list written as the explicit concatenation of its five
optional blocks, in push order. -/
theorem buildParts_eq (input : VeoPromptInput) :
    buildParts input =
      (match input.image with
       | some image =>
           [Part.inlineData image.mimeType image.data,
            Part.text "The user has provided the above image as a visual reference."]
       | none => []) ++
      (if hasValidAction input.actions then
         [Part.text ("ACTION TIMELINE:\n" ++ actionTimeline input.actions)] else []) ++
      (if hasValidDialogue input.timedDialogues then
         [Part.text ("DIALOGUE TIMELINE (IN INDONESIAN):\n" ++ dialogueTimeline input.timedDialogues)] else []) ++
      (if input.cameraMovement != "" && input.cameraMovement != "Automatic" then
         [Part.text ("CAMERA MOVEMENT PREFERENCE: " ++ input.cameraMovement)] else []) ++
      (if input.tone != "" && input.tone != "Automatic" then
         [Part.text ("TONE PREFERENCE: " ++ input.tone)] else []) := by
  cases h : input.image <;>
    simp only [buildParts, Id.run, h] <;>
    split_ifs <;> simp_all

/-- Joining a single line leaves it unchanged. -/
theorem intercalate_single (sep x : String) : String.intercalate sep [x] = x := rfl

/-- Two appends differ whenever their first two characters differ. -/
theorem append_ne_of_take_two (p q x y : String)
    (hp : 2 ≤ p.data.length) (hq : 2 ≤ q.data.length)
    (h : p.data.take 2 ≠ q.data.take 2) : p ++ x ≠ q ++ y := by
  intro he
  apply h
  have hd : p.data ++ x.data = q.data ++ y.data := by
    have := congrArg String.data he
    simpa [String.data_append] using this
  calc p.data.take 2 = (p.data ++ x.data).take 2 := (List.take_append_of_le_length hp).symm
    _ = (q.data ++ y.data).take 2 := by rw [hd]
    _ = q.data.take 2 := List.take_append_of_le_length hq

/-- A camera-preference text never coincides with the image caption. -/
theorem cameraText_ne_caption (s : String) :
    "CAMERA MOVEMENT PREFERENCE: " ++ s ≠ "The user has provided the above image as a visual reference." := by
  have h := append_ne_of_take_two "CAMERA MOVEMENT PREFERENCE: "
    "The user has provided the above image as a visual reference." s ""
    (by decide) (by decide) (by decide)
  simpa using h

/-- A camera-preference text never coincides with an action-timeline block. -/
theorem cameraText_ne_action (s t : String) :
    "CAMERA MOVEMENT PREFERENCE: " ++ s ≠ "ACTION TIMELINE:\n" ++ t :=
  append_ne_of_take_two _ _ s t (by decide) (by decide) (by decide)

/-- A camera-preference text never coincides with a dialogue-timeline block. -/
theorem cameraText_ne_dialogue (s t : String) :
    "CAMERA MOVEMENT PREFERENCE: " ++ s ≠ "DIALOGUE TIMELINE (IN INDONESIAN):\n" ++ t :=
  append_ne_of_take_two _ _ s t (by decide) (by decide) (by decide)

/-- A camera-preference text never coincides with a tone-preference block. -/
theorem cameraText_ne_tone (s t : String) :
    "CAMERA MOVEMENT PREFERENCE: " ++ s ≠ "TONE PREFERENCE: " ++ t :=
  append_ne_of_take_two _ _ s t (by decide) (by decide) (by decide)

/-- A tone-preference text never coincides with the image caption. -/
theorem toneText_ne_caption (s : String) :
    "TONE PREFERENCE: " ++ s ≠ "The user has provided the above image as a visual reference." := by
  have h := append_ne_of_take_two "TONE PREFERENCE: "
    "The user has provided the above image as a visual reference." s ""
    (by decide) (by decide) (by decide)
  simpa using h

/-- A tone-preference text never coincides with an action-timeline block. -/
theorem toneText_ne_action (s t : String) :
    "TONE PREFERENCE: " ++ s ≠ "ACTION TIMELINE:\n" ++ t :=
  append_ne_of_take_two _ _ s t (by decide) (by decide) (by decide)

/-- A tone-preference text never coincides with a dialogue-timeline block. -/
theorem toneText_ne_dialogue (s t : String) :
    "TONE PREFERENCE: " ++ s ≠ "DIALOGUE TIMELINE (IN INDONESIAN):\n" ++ t :=
  append_ne_of_take_two _ _ s t (by decide) (by decide) (by decide)

/-- A tone-preference text never coincides with a camera-preference block. -/
theorem toneText_ne_camera (s t : String) :
    "TONE PREFERENCE: " ++ s ≠ "CAMERA MOVEMENT PREFERENCE: " ++ t :=
  append_ne_of_take_two _ _ s t (by decide) (by decide) (by decide)

/-! ## Claim theorems -/

/-- C2: for every input, the assembled parts sequence is exactly, in
order: image part plus its fixed visual-reference caption (only if an
image is present), then an ACTION TIMELINE text block (only if some
action has non-empty trimmed description), then a DIALOGUE TIMELINE
(IN INDONESIAN) text block (only if some dialogue has non-empty trimmed
text), then a CAMERA MOVEMENT PREFERENCE block (only if cameraMovement
is non-empty and not "Automatic"), then a TONE PREFERENCE block (only if
tone is non-empty and not "Automatic"); no other parts appear. -/
theorem parts_assembled_in_fixed_order (input : VeoPromptInput) :
    buildParts input =
      (match input.image with
       | some image =>
           [Part.inlineData image.mimeType image.data,
            Part.text "The user has provided the above image as a visual reference."]
       | none => []) ++
      (if ∃ a ∈ input.actions, jsTrim a.description ≠ "" then
         [Part.text ("ACTION TIMELINE:\n" ++ actionTimeline input.actions)] else []) ++
      (if ∃ d ∈ input.timedDialogues, jsTrim d.dialogueText ≠ "" then
         [Part.text ("DIALOGUE TIMELINE (IN INDONESIAN):\n" ++ dialogueTimeline input.timedDialogues)] else []) ++
      (if input.cameraMovement ≠ "" ∧ input.cameraMovement ≠ "Automatic" then
         [Part.text ("CAMERA MOVEMENT PREFERENCE: " ++ input.cameraMovement)] else []) ++
      (if input.tone ≠ "" ∧ input.tone ≠ "Automatic" then
         [Part.text ("TONE PREFERENCE: " ++ input.tone)] else []) := by
  have hA : (hasValidAction input.actions = true) ↔
      ∃ a ∈ input.actions, jsTrim a.description ≠ "" := by
    simp [hasValidAction]
  have hD : (hasValidDialogue input.timedDialogues = true) ↔
      ∃ d ∈ input.timedDialogues, jsTrim d.dialogueText ≠ "" := by
    simp [hasValidDialogue]
  have hC : ((input.cameraMovement != "" && input.cameraMovement != "Automatic") = true) ↔
      (input.cameraMovement ≠ "" ∧ input.cameraMovement ≠ "Automatic") := by
    simp
  have hT : ((input.tone != "" && input.tone != "Automatic") = true) ↔
      (input.tone ≠ "" ∧ input.tone ≠ "Automatic") := by
    simp
  rw [buildParts_eq, if_congr hA rfl rfl, if_congr hD rfl rfl,
    if_congr hC rfl rfl, if_congr hT rfl rfl]

/-- C3: for every timeline entry list with at least one entry whose
trimmed text is non-empty, the rendered timeline is exactly one emitted
line per such entry, in the original input order (no sorting), each of
the form "- \x7bstartTime or "0"\x7d–\x7bendTime or "?"\x7d sec:
\x7btrimmed text\x7d", with dialogue lines additionally wrapping the
trimmed text in quotation marks; the lines are joined with newline. -/
theorem renderTimeline_one_line_per_entry (actions : List Action) (dialogues : List TimedDialogue)
    (ha : ∃ a ∈ actions, jsTrim a.description ≠ "")
    (hd : ∃ d ∈ dialogues, jsTrim d.dialogueText ≠ "") :
    actionTimeline actions =
      String.intercalate "\n"
        ((actions.filter (fun a => jsTrim a.description != "")).map (fun a =>
          "- " ++ (if a.startTime = "" then "0" else a.startTime) ++ "–" ++
          (if a.endTime = "" then "?" else a.endTime) ++ " sec: " ++ jsTrim a.description))
    ∧ dialogueTimeline dialogues =
      String.intercalate "\n"
        ((dialogues.filter (fun d => jsTrim d.dialogueText != "")).map (fun d =>
          "- " ++ (if d.startTime = "" then "0" else d.startTime) ++ "–" ++
          (if d.endTime = "" then "?" else d.endTime) ++ " sec: \"" ++ jsTrim d.dialogueText ++ "\"")) :=
  ⟨rfl, rfl⟩

/-- Witness for C3 at the spec's own example entries. -/
theorem renderTimeline_one_line_per_entry_witness :
    actionTimeline [⟨"0", "2", "Knight walks"⟩] = "- 0–2 sec: Knight walks" ∧
    dialogueTimeline [⟨"0", "2", "Mau pergi kemana?"⟩] = "- 0–2 sec: \"Mau pergi kemana?\"" := by
  have h := renderTimeline_one_line_per_entry
    [⟨"0", "2", "Knight walks"⟩] [⟨"0", "2", "Mau pergi kemana?"⟩]
    (by decide) (by decide)
  exact ⟨h.1.trans rfl, h.2.trans rfl⟩

/-- C10: the "0" / "?" defaults for start and end time apply only when
the field is the exact empty string; a whitespace-only or otherwise
non-empty startTime/endTime is emitted in the rendered line as-is,
untrimmed and unvalidated, for every entry whose text is valid. -/
theorem time_defaults_only_on_exact_empty (a : Action) (d : TimedDialogue)
    (hsa : a.startTime ≠ "") (hea : a.endTime ≠ "")
    (hsd : d.startTime = "") (hed : d.endTime = "")
    (hva : jsTrim a.description ≠ "") (hvd : jsTrim d.dialogueText ≠ "") :
    actionTimeline [a] = "- " ++ a.startTime ++ "–" ++ a.endTime ++ " sec: " ++ jsTrim a.description ∧
    dialogueTimeline [d] = "- 0–? sec: \"" ++ jsTrim d.dialogueText ++ "\"" := by
  constructor
  · have hf : [a].filter (fun a => jsTrim a.description != "") = [a] := by
      simp [List.filter, bne_iff_ne.mpr hva]
    rw [actionTimeline, hf]
    simp [intercalate_single, actionLine, jsOr, hsa, hea]
  · have hf : [d].filter (fun d => jsTrim d.dialogueText != "") = [d] := by
      simp [List.filter, bne_iff_ne.mpr hvd]
    rw [dialogueTimeline, hf]
    simp [intercalate_single, dialogueLine, jsOr, hsd, hed]

/-- Witness for C10: a whitespace-only startTime is kept verbatim
(yielding a double space), an exactly-empty start/end pair gets the
defaults. -/
theorem time_defaults_only_on_exact_empty_witness :
    actionTimeline [⟨" ", "3", "walks"⟩] = "-  –3 sec: walks" ∧
    dialogueTimeline [⟨"", "", "Halo"⟩] = "- 0–? sec: \"Halo\"" := by
  have h := time_defaults_only_on_exact_empty ⟨" ", "3", "walks"⟩ ⟨"", "", "Halo"⟩
    (by decide) (by decide) rfl rfl (by decide) (by decide)
  exact ⟨h.1.trans rfl, h.2.trans rfl⟩

/-- When a valid action, a valid dialogue, or an image is present, the
input guard of `generateVeoPrompt` does not fire. -/
theorem input_guard_passes (input : VeoPromptInput)
    (hprov : (hasValidAction input.actions || hasValidDialogue input.timedDialogues
              || input.image.isSome) = true) :
    (!hasValidAction input.actions && !hasValidDialogue input.timedDialogues
      && input.image.isNone) = false := by
  revert hprov
  cases hasValidAction input.actions <;> cases hasValidDialogue input.timedDialogues <;>
    cases input.image <;> simp

/-- C4: if the API_KEY credential is absent, `generateVeoPrompt` fails
immediately with the configuration-error message, surfaced verbatim as
an Error (not wrapped in the "Failed to generate prompt:" prefix), and
no model request is attempted: the result is the same for every `call`
oracle and every input. -/
theorem missing_api_key_config_error (apiKey : Option String)
    (parse : String → Except String Json) (call : List Part → ApiOutcome)
    (input : VeoPromptInput) (h : apiKey.getD "" = "") :
    generateVeoPrompt apiKey parse call input =
      Except.error (JsVal.errorObj "API key is missing. Please set the API_KEY environment variable.") := by
  simp [generateVeoPrompt, h]

/-- Witness for C4: no credential, a well-formed input, a call oracle
that would succeed — the configuration error is still returned. -/
theorem missing_api_key_config_error_witness :
    generateVeoPrompt none (fun _ => Except.error "SyntaxError")
      (fun _ => ApiOutcome.success "\x7b\x7d")
      ⟨[⟨"0", "2", "Knight walks"⟩], [⟨"", "", ""⟩], "Automatic", "Automatic", none⟩ =
      Except.error (JsVal.errorObj "API key is missing. Please set the API_KEY environment variable.") :=
  missing_api_key_config_error none _ _ _ rfl

/-- C5: if every action description and every dialogue text is empty or
whitespace after trimming and no image is supplied, `generateVeoPrompt`
(with a configured credential) fails immediately with the input-error
message, surfaced verbatim as an Error, and no model request is
attempted: the result is the same for every `call` oracle. -/
theorem empty_input_error (k : String) (parse : String → Except String Json)
    (call : List Part → ApiOutcome) (input : VeoPromptInput)
    (hk : k ≠ "")
    (ha : ∀ a ∈ input.actions, jsTrim a.description = "")
    (hd : ∀ d ∈ input.timedDialogues, jsTrim d.dialogueText = "")
    (hi : input.image = none) :
    generateVeoPrompt (some k) parse call input =
      Except.error (JsVal.errorObj "Action timeline, dialogue timeline, or an image is required.") := by
  have hva : hasValidAction input.actions = false := by
    simp only [hasValidAction, List.any_eq_false, bne_iff_ne, ne_eq, not_not]
    exact ha
  have hvd : hasValidDialogue input.timedDialogues = false := by
    simp only [hasValidDialogue, List.any_eq_false, bne_iff_ne, ne_eq, not_not]
    exact hd
  simp [generateVeoPrompt, hk, hva, hvd, hi]

/-- Witness for C5: whitespace-only action, empty dialogue, no image. -/
theorem empty_input_error_witness :
    generateVeoPrompt (some "key") (fun _ => Except.error "SyntaxError")
      (fun _ => ApiOutcome.success "\x7b\x7d")
      ⟨[⟨"0", "2", "   "⟩], [⟨"", "", ""⟩], "Automatic", "Automatic", none⟩ =
      Except.error (JsVal.errorObj "Action timeline, dialogue timeline, or an image is required.") :=
  empty_input_error "key" _ _ _ (by decide) (by decide) (by decide) rfl

/-- C6: for every response text that does not start with a JSON
delimiter, `generateVeoPrompt` rejects with the plain string
"Failed to generate prompt: The API did not return a valid JSON
format." without ever attempting to parse the text: the result is the
same for every `parse` oracle. -/
theorem non_json_response_rejected (k : String) (parse : String → Except String Json)
    (input : VeoPromptInput) (text : String)
    (hk : k ≠ "")
    (hprov : (hasValidAction input.actions || hasValidDialogue input.timedDialogues
              || input.image.isSome) = true)
    (h1 : jsStartsWith text "\x7b" = false) (h2 : jsStartsWith text "[" = false) :
    generateVeoPrompt (some k) parse (fun _ => ApiOutcome.success text) input =
      Except.error (JsVal.strVal "Failed to generate prompt: The API did not return a valid JSON format.") := by
  simp [generateVeoPrompt, hk, input_guard_passes input hprov, h1, h2]

/-- Witness for C6: the spec's "not json" response is rejected with the
prefixed schema-violation string, whatever `JSON.parse` would do. -/
theorem non_json_response_rejected_witness :
    generateVeoPrompt (some "key") (fun _ => Except.ok Json.null)
      (fun _ => ApiOutcome.success "not json")
      ⟨[⟨"0", "2", "Knight walks"⟩], [⟨"", "", ""⟩], "Automatic", "Automatic", none⟩ =
      Except.error (JsVal.strVal "Failed to generate prompt: The API did not return a valid JSON format.") :=
  non_json_response_rejected "key" _ _ "not json" (by decide) (by decide) (by decide) (by decide)

/-- C8: for every response text that passes the JSON-delimiter check,
a successful parse yields exactly the two-space re-serialization of the
parsed value, and a parse failure yields an error (the prefixed
SyntaxError message). -/
theorem parsed_response_pretty_printed (k : String) (parse : String → Except String Json)
    (input : VeoPromptInput) (text : String) (v : Json) (m : String)
    (hk : k ≠ "")
    (hprov : (hasValidAction input.actions || hasValidDialogue input.timedDialogues
              || input.image.isSome) = true)
    (hdelim : (jsStartsWith text "\x7b" || jsStartsWith text "[") = true) :
    (parse text = Except.ok v →
      generateVeoPrompt (some k) parse (fun _ => ApiOutcome.success text) input =
        Except.ok (jsonStringify2 v)) ∧
    (parse text = Except.error m →
      generateVeoPrompt (some k) parse (fun _ => ApiOutcome.success text) input =
        Except.error (JsVal.strVal ("Failed to generate prompt: " ++ m))) := by
  have hdel : (!jsStartsWith text "\x7b" && !jsStartsWith text "[") = false := by
    revert hdelim
    cases jsStartsWith text "\x7b" <;> cases jsStartsWith text "[" <;> simp
  constructor
  · intro hp
    simp [generateVeoPrompt, hk, input_guard_passes input hprov, hdel, hp]
  · intro hp
    simp [generateVeoPrompt, hk, input_guard_passes input hprov, hdel, hp]

/-- Witness for C8: a concrete object response is returned pretty-printed
with two-space indentation, and a malformed text passing the delimiter
check is rejected. -/
theorem parsed_response_pretty_printed_witness :
    generateVeoPrompt (some "key")
      (fun s => if s = "\x7b\"a\":1\x7d" then Except.ok (Json.obj [("a", Json.num "1")])
                else Except.error "Unexpected end of JSON input")
      (fun _ => ApiOutcome.success "\x7b\"a\":1\x7d")
      ⟨[⟨"0", "2", "Knight walks"⟩], [⟨"", "", ""⟩], "Automatic", "Automatic", none⟩ =
      Except.ok "\x7b\n  \"a\": 1\n\x7d" ∧
    generateVeoPrompt (some "key")
      (fun s => if s = "\x7b\"a\":1\x7d" then Except.ok (Json.obj [("a", Json.num "1")])
                else Except.error "Unexpected end of JSON input")
      (fun _ => ApiOutcome.success "\x7b\"a\":")
      ⟨[⟨"0", "2", "Knight walks"⟩], [⟨"", "", ""⟩], "Automatic", "Automatic", none⟩ =
      Except.error (JsVal.strVal "Failed to generate prompt: Unexpected end of JSON input") := by
  constructor
  · have h := parsed_response_pretty_printed "key"
      (fun s => if s = "\x7b\"a\":1\x7d" then Except.ok (Json.obj [("a", Json.num "1")])
                else Except.error "Unexpected end of JSON input")
      ⟨[⟨"0", "2", "Knight walks"⟩], [⟨"", "", ""⟩], "Automatic", "Automatic", none⟩
      "\x7b\"a\":1\x7d" (Json.obj [("a", Json.num "1")]) "Unexpected end of JSON input"
      (by decide) (by decide) (by decide)
    exact (h.1 rfl).trans rfl
  · have h := parsed_response_pretty_printed "key"
      (fun s => if s = "\x7b\"a\":1\x7d" then Except.ok (Json.obj [("a", Json.num "1")])
                else Except.error "Unexpected end of JSON input")
      ⟨[⟨"0", "2", "Knight walks"⟩], [⟨"", "", ""⟩], "Automatic", "Automatic", none⟩
      "\x7b\"a\":" (Json.obj [("a", Json.num "1")]) "Unexpected end of JSON input"
      (by decide) (by decide) (by decide)
    exact (h.2 rfl).trans rfl

/-- C7: the camera and tone preference parts are omitted exactly when the
corresponding value is the empty string or exactly "Automatic"; for any
other value the part is included and carries the user-supplied string
verbatim after the fixed label. -/
theorem preference_parts_omitted_iff_automatic (input : VeoPromptInput) :
    ((input.cameraMovement = "" ∨ input.cameraMovement = "Automatic") →
      ∀ s, Part.text ("CAMERA MOVEMENT PREFERENCE: " ++ s) ∉ buildParts input) ∧
    (input.cameraMovement ≠ "" → input.cameraMovement ≠ "Automatic" →
      Part.text ("CAMERA MOVEMENT PREFERENCE: " ++ input.cameraMovement) ∈ buildParts input) ∧
    ((input.tone = "" ∨ input.tone = "Automatic") →
      ∀ s, Part.text ("TONE PREFERENCE: " ++ s) ∉ buildParts input) ∧
    (input.tone ≠ "" → input.tone ≠ "Automatic" →
      Part.text ("TONE PREFERENCE: " ++ input.tone) ∈ buildParts input) := by
  refine ⟨?_, ?_, ?_, ?_⟩
  · intro hcm s hmem
    have hcam : (input.cameraMovement != "" && input.cameraMovement != "Automatic") = false := by
      rcases hcm with h | h <;> simp [h]
    rw [buildParts_eq] at hmem
    cases himg : input.image <;> rw [himg] at hmem <;>
      cases hA : hasValidAction input.actions <;>
      cases hD : hasValidDialogue input.timedDialogues <;>
      cases hT : (input.tone != "" && input.tone != "Automatic") <;>
      simp [hA, hD, hT, hcam, cameraText_ne_caption, cameraText_ne_action,
        cameraText_ne_dialogue, cameraText_ne_tone] at hmem
  · intro h1 h2
    have hcam : (input.cameraMovement != "" && input.cameraMovement != "Automatic") = true := by
      simp [h1, h2]
    rw [buildParts_eq]
    simp [hcam]
  · intro htn s hmem
    have htone : (input.tone != "" && input.tone != "Automatic") = false := by
      rcases htn with h | h <;> simp [h]
    rw [buildParts_eq] at hmem
    cases himg : input.image <;> rw [himg] at hmem <;>
      cases hA : hasValidAction input.actions <;>
      cases hD : hasValidDialogue input.timedDialogues <;>
      cases hC : (input.cameraMovement != "" && input.cameraMovement != "Automatic") <;>
      simp [hA, hD, hC, htone, toneText_ne_caption, toneText_ne_action,
        toneText_ne_dialogue, toneText_ne_camera] at hmem
  · intro h1 h2
    have htone : (input.tone != "" && input.tone != "Automatic") = true := by
      simp [h1, h2]
    rw [buildParts_eq]
    simp [htone]

/-- Witness for C7: a custom camera movement is included verbatim while
the Automatic tone emits no tone part. -/
theorem preference_parts_omitted_iff_automatic_witness :
    Part.text "CAMERA MOVEMENT PREFERENCE: Swipe left" ∈
      buildParts ⟨[⟨"0", "2", "Knight walks"⟩], [⟨"", "", ""⟩], "Swipe left", "Automatic", none⟩ ∧
    Part.text "TONE PREFERENCE: epic" ∉
      buildParts ⟨[⟨"0", "2", "Knight walks"⟩], [⟨"", "", ""⟩], "Swipe left", "Automatic", none⟩ := by
  have h := preference_parts_omitted_iff_automatic
    ⟨[⟨"0", "2", "Knight walks"⟩], [⟨"", "", ""⟩], "Swipe left", "Automatic", none⟩
  exact ⟨h.2.1 (by decide) (by decide), h.2.2.1 (Or.inr rfl) "epic"⟩

/-- C9: the rejection value's type is inconsistent across error classes:
the credential and input guards reject the promise with an Error object,
while every failure inside the request/validation path (transport,
non-JSON response, parse failure) rejects with a plain string, so a
caller testing `err instanceof Error` displays the generic
unknown-error message for the latter. -/
theorem rejection_value_type_inconsistent (parse : String → Except String Json)
    (call : List Part → ApiOutcome) (input : VeoPromptInput)
    (k text ptext m pm : String)
    (hk : k ≠ "")
    (hprov : (hasValidAction input.actions || hasValidDialogue input.timedDialogues
              || input.image.isSome) = true)
    (h1 : jsStartsWith text "\x7b" = false) (h2 : jsStartsWith text "[" = false)
    (hpd : jsStartsWith ptext "\x7b" = true)
    (hp : parse ptext = Except.error pm) :
    (generateVeoPrompt none parse call input =
       Except.error (JsVal.errorObj "API key is missing. Please set the API_KEY environment variable.") ∧
     instanceOfError (JsVal.errorObj "API key is missing. Please set the API_KEY environment variable.") = true) ∧
    (generateVeoPrompt (some k) parse (fun _ => ApiOutcome.failure (JsVal.errorObj m)) input =
       Except.error (JsVal.strVal ("Failed to generate prompt: " ++ m)) ∧
     instanceOfError (JsVal.strVal ("Failed to generate prompt: " ++ m)) = false ∧
     appDisplayError (JsVal.strVal ("Failed to generate prompt: " ++ m)) =
       "An unexpected error occurred.") ∧
    generateVeoPrompt (some k) parse (fun _ => ApiOutcome.success text) input =
      Except.error (JsVal.strVal "Failed to generate prompt: The API did not return a valid JSON format.") ∧
    generateVeoPrompt (some k) parse (fun _ => ApiOutcome.success ptext) input =
      Except.error (JsVal.strVal ("Failed to generate prompt: " ++ pm)) := by
  refine ⟨⟨?_, rfl⟩, ⟨?_, rfl, rfl⟩, ?_, ?_⟩
  · simp [generateVeoPrompt]
  · simp [generateVeoPrompt, hk, input_guard_passes input hprov]
  · simp [generateVeoPrompt, hk, input_guard_passes input hprov, h1, h2]
  · simp [generateVeoPrompt, hk, input_guard_passes input hprov, hpd, hp]

/-- Witness for C9 at concrete inputs: a missing key rejects with an
Error object; a transport Error and a non-JSON response reject with
plain strings. -/
theorem rejection_value_type_inconsistent_witness :
    generateVeoPrompt none (fun _ => Except.error "Unexpected token")
      (fun _ => ApiOutcome.success "\x7b\x7d") sampleInput =
      Except.error (JsVal.errorObj "API key is missing. Please set the API_KEY environment variable.") ∧
    generateVeoPrompt (some "key") (fun _ => Except.error "Unexpected token")
      (fun _ => ApiOutcome.failure (JsVal.errorObj "Network error")) sampleInput =
      Except.error (JsVal.strVal "Failed to generate prompt: Network error") ∧
    generateVeoPrompt (some "key") (fun _ => Except.error "Unexpected token")
      (fun _ => ApiOutcome.success "not json") sampleInput =
      Except.error (JsVal.strVal "Failed to generate prompt: The API did not return a valid JSON format.") ∧
    generateVeoPrompt (some "key") (fun _ => Except.error "Unexpected token")
      (fun _ => ApiOutcome.success "\x7b bad") sampleInput =
      Except.error (JsVal.strVal "Failed to generate prompt: Unexpected token") := by
  have h := rejection_value_type_inconsistent (fun _ => Except.error "Unexpected token")
    (fun _ => ApiOutcome.success "\x7b\x7d") sampleInput
    "key" "not json" "\x7b bad" "Network error" "Unexpected token"
    (by decide) (by decide) (by decide) (by decide) (by decide) rfl
  exact ⟨h.1.1, h.2.1.1, h.2.2.1, h.2.2.2⟩

/-- C1 (amended): `generateVeoPrompt` performs no client-side field-level
schema validation: a response whose text passes the JSON-delimiter check
and parses as JSON is accepted and returned pretty-printed even when
required schema fields (such as aspect_ratio) are missing;
required-field enforcement is delegated to the provider through the
request's `responseSchema`. -/
theorem missing_required_fields_accepted (k : String) (parse : String → Except String Json)
    (input : VeoPromptInput) (text : String) (v : Json)
    (hk : k ≠ "")
    (hprov : (hasValidAction input.actions || hasValidDialogue input.timedDialogues
              || input.image.isSome) = true)
    (hdelim : (jsStartsWith text "\x7b" || jsStartsWith text "[") = true)
    (hp : parse text = Except.ok v)
    (hmiss : satisfiesRequired v = false) :
    generateVeoPrompt (some k) parse (fun _ => ApiOutcome.success text) input =
      Except.ok (jsonStringify2 v) := by
  have hdel : (!jsStartsWith text "\x7b" && !jsStartsWith text "[") = false := by
    revert hdelim
    cases jsStartsWith text "\x7b" <;> cases jsStartsWith text "[" <;> simp
  simp [generateVeoPrompt, hk, input_guard_passes input hprov, hdel, hp]

/-- Witness for the amended C1 at the concrete fixture. -/
theorem missing_required_fields_accepted_witness :
    generateVeoPrompt (some "key") parseMissingAspect
      (fun _ => ApiOutcome.success respMissingAspect) sampleInput =
      Except.ok (jsonStringify2 jsonMissingAspect) :=
  missing_required_fields_accepted "key" parseMissingAspect sampleInput
    respMissingAspect jsonMissingAspect (by decide) (by decide) rfl rfl rfl

/-- C1 counterexample: a syntactically valid JSON response (its text
starts with an opening brace and parses) that lacks the required
aspect_ratio field is NOT rejected: `generateVeoPrompt` resolves with
the pretty-printed string instead of a schema-violation error. -/
theorem missing_required_field_not_rejected_cex :
    jsStartsWith respMissingAspect "\x7b" = true ∧
    parseMissingAspect respMissingAspect = Except.ok jsonMissingAspect ∧
    satisfiesRequired jsonMissingAspect = false ∧
    generateVeoPrompt (some "key") parseMissingAspect
      (fun _ => ApiOutcome.success respMissingAspect) sampleInput =
      Except.ok (jsonStringify2 jsonMissingAspect) :=
  ⟨rfl, rfl, rfl, rfl⟩

end VeoGen
